import Mathlib

/-!
# gcp-spot-vm-failsafe: the HTTP handlers and the shutdown sequence of `app/main.go`

A shallow embedding of `main.go`.

* Go's `int` and `time.Duration` are 64-bit signed integers (the service is built for
  64-bit hosts); they are `Int` here and every arithmetic result is wrapped with `wrapInt64`.
* The Go standard library is the environment of the program.  `strconv.Atoi` is a parameter
  `atoi` of the handler (a concrete model `Atoi` is given for evaluation), the values returned
  by the successive calls of `time.Since(start)` are a stream `since : Nat → Int` of
  nanosecond readings, and the behaviour of `time.Sleep` and `srv.Shutdown` is an `Env`.
* The busy loop of `/process-image` may not terminate (a clock that stands still), so it takes
  fuel: one unit per evaluation of the loop condition.
* `x += math.Sqrt(x)` is floating point and never read again; it is left out.
-/

namespace SpotFailsafe

/-! ## 64-bit integers and durations -/

/-- Two's complement wrap of an integer into the range of Go's `int64`. -/
def wrapInt64 (x : Int) : Int :=
  (x + 9223372036854775808) % 18446744073709551616 - 9223372036854775808

/-- Range of Go's `int64`. -/
def inInt64 (x : Int) : Prop :=
  -9223372036854775808 ≤ x ∧ x ≤ 9223372036854775807

instance (x : Int) : Decidable (inInt64 x) := by
  unfold inInt64; exact inferInstance

/-- Go's `time.Millisecond`, in nanoseconds. -/
def Millisecond : Int := 1000000

/-- Go's `time.Second`, in nanoseconds. -/
def Second : Nat := 1000000000

/-- The loop bound `time.Duration(processingTimeMs)*time.Millisecond` of line 43:
a conversion to `int64` followed by an `int64` multiplication. -/
def loopBound (processingTimeMs : Int) : Int :=
  wrapInt64 (wrapInt64 processingTimeMs * Millisecond)

/-! ## Errors -/

/-- Go `error` values the program can meet (`nil` is `none` of `Option GoError`). -/
inductive GoError where
  | errServerClosed
  | deadlineExceeded
  | syntaxError
  | rangeError
  | other (msg : String)
  deriving DecidableEq

/-! ## The query string -/

/-- Go's `url.Values`: a map from a key to its list of values (no entry: the empty list). -/
abbrev Values := String → List String

/-- Go's `url.Values.Get`: the first value of the key, or the empty string. -/
def Values.Get (v : Values) (key : String) : String :=
  match v key with
  | [] => ""
  | s :: _ => s

/-- An HTTP request, as far as a handler can inspect it. -/
structure Request where
  Method : String
  Path : String
  Header : List (String × List String)
  Query : Values

/-! ## A model of `strconv.Atoi` on a 64-bit host -/

/-- The digit loop of Go's `strconv.ParseUint` for base 10 and 64 bits, `n` being the value
read so far: a character that is no digit is a syntax error; a value that leaves the
`uint64` range is a range error, reported with the largest `uint64` as soon as it is met. -/
def ParseUintLoop : List Char → Nat → Nat × Option GoError
  | [], n => (n, none)
  | c :: cs, n =>
    if 48 ≤ c.toNat ∧ c.toNat ≤ 57 then
      if 1844674407370955162 ≤ n then (18446744073709551615, some GoError.rangeError)
      else if 18446744073709551615 < n * 10 + (c.toNat - 48) then
        (18446744073709551615, some GoError.rangeError)
      else ParseUintLoop cs (n * 10 + (c.toNat - 48))
    else (0, some GoError.syntaxError)

/-- Go's `strconv.ParseUint(s, 10, 64)`. -/
def ParseUint (s : List Char) : Nat × Option GoError :=
  match s with
  | [] => (0, some GoError.syntaxError)
  | _ => ParseUintLoop s 0

/-- Go's `strconv.Atoi` for a 64-bit `int`, that is `strconv.ParseInt(s, 10, 0)` (the short
path of `Atoi` for fewer than 19 bytes returns the same): an optional sign, then
`ParseUint`; a syntax error gives 0, a value out of the `int64` range is clamped and
reported with a range error. -/
def AtoiChars (s : List Char) : Int × Option GoError :=
  match s with
  | [] => (0, some GoError.syntaxError)
  | _ =>
    let (neg, ds) : Bool × List Char :=
      match s with
      | '-' :: r => (true, r)
      | '+' :: r => (false, r)
      | r => (false, r)
    let res := ParseUint ds
    if res.2 = some GoError.syntaxError then (0, some GoError.syntaxError)
    else if !neg && decide (9223372036854775808 ≤ res.1) then
      (9223372036854775807, some GoError.rangeError)
    else if neg && decide (9223372036854775808 < res.1) then
      (-9223372036854775808, some GoError.rangeError)
    else if neg then (-(res.1 : Int), none)
    else ((res.1 : Int), none)

/-- Go's `strconv.Atoi` on a string. -/
def Atoi (s : String) : Int × Option GoError := AtoiChars s.toList

/-! ## The `/process-image` handler -/

/-- Lines 32-37: the default of 50 ms, replaced by the parsed `duration` value when the
query has a non-empty one and `strconv.Atoi` reports no error. -/
def processingTimeMs (atoi : String → Int × Option GoError) (q : Values) : Int :=
  let durStr := q.Get "duration"
  if durStr ≠ "" then
    match atoi durStr with
    | (d, none) => d
    | (_, some _) => 50
  else 50

/-- Lines 42-46: the busy loop.  `i` is the index of the next reading of
`time.Since(start)`, `pixelsProcessed` the counter.  The result is the counter and the index
of the first reading not yet consumed; `none` when the fuel runs out. -/
def busyLoop (since : Nat → Int) (bound : Int) : Nat → Nat → Int → Option (Int × Nat)
  | 0, _, _ => none
  | fuel + 1, i, pixelsProcessed =>
    if since i < bound then busyLoop since bound fuel (i + 1) (wrapInt64 (pixelsProcessed + 1))
    else some (pixelsProcessed, i + 1)

/-- What the `/process-image` handler writes: the status and the two values formatted into
`"Image processed successfully. Filter applied to %d pixels in %v"`. -/
structure ProcessImageResponse where
  status : Nat
  pixelsProcessed : Int
  elapsed : Int
  deriving DecidableEq

/-- Lines 27-50: the `/process-image` handler. -/
def processImage (atoi : String → Int × Option GoError) (r : Request) (since : Nat → Int)
    (fuel : Nat) : Option ProcessImageResponse :=
  match busyLoop since (loopBound (processingTimeMs atoi r.Query)) fuel 0 0 with
  | none => none
  | some (pixelsProcessed, k) =>
    some { status := 200, pixelsProcessed := pixelsProcessed, elapsed := since k }

/-! ## The health handler -/

/-- The response writer of Go's `net/http` server, as far as a handler acts on it: the
method of the request it answers, the status line, once written, and the body sent so
far. -/
structure ResponseWriter where
  reqMethod : String
  wroteHeader : Bool
  status : Nat
  body : String
  deriving DecidableEq

/-- The writer the server hands to the handler of a request. -/
def ResponseWriter.fresh (r : Request) : ResponseWriter :=
  { reqMethod := r.Method, wroteHeader := false, status := 0, body := "" }

/-- Go's `ResponseWriter.WriteHeader` for a final status code: the first call fixes the
status. -/
def ResponseWriter.WriteHeader (w : ResponseWriter) (code : Nat) : ResponseWriter :=
  if w.wroteHeader then w else { w with wroteHeader := true, status := code }

/-- Whether `net/http` lets a response of this status carry a body: not 1xx, 204, 304. -/
def bodyAllowedForStatus (status : Nat) : Bool :=
  if 100 ≤ status ∧ status ≤ 199 then false
  else if status = 204 then false
  else if status = 304 then false
  else true

/-- Go's `ResponseWriter.Write` on the server's writer: writes the header with status 200
when none was written; the bytes are refused when the status allows no body and dropped
when the request is a `HEAD`; otherwise they are appended to the body. -/
def ResponseWriter.Write (w : ResponseWriter) (b : String) : ResponseWriter :=
  let w1 := w.WriteHeader 200
  if !bodyAllowedForStatus w1.status then w1
  else if w1.reqMethod = "HEAD" then w1
  else { w1 with body := w1.body ++ b }

/-- Lines 22-25: the handler registered on `"/"`. -/
def healthHandler (w : ResponseWriter) (_r : Request) : ResponseWriter :=
  (w.WriteHeader 200).Write "Image Processing Service: Ready"

/-- The server calling the health handler on a request, with a writer of its own. -/
def serveHealth (r : Request) : ResponseWriter :=
  healthHandler (ResponseWriter.fresh r) r

/-! ## The listener goroutine -/

/-- How an execution path of the process ends: it returns, or `log.Fatalf` logs the message
and exits the process with status 1. -/
inductive Outcome where
  | returned
  | fatal (msg : String)
  deriving DecidableEq

/-- Rendering of an error by `%v`. -/
def GoError.text : Option GoError → String
  | none => "<nil>"
  | some .errServerClosed => "http: Server closed"
  | some .deadlineExceeded => "context deadline exceeded"
  | some .syntaxError => "invalid syntax"
  | some .rangeError => "value out of range"
  | some (.other msg) => msg

/-- Lines 55-60: the goroutine, given the error `srv.ListenAndServe()` returned. -/
def listenerPath (err : Option GoError) : Outcome :=
  if err ≠ some GoError.errServerClosed then
    Outcome.fatal ("ListenAndServe(): " ++ GoError.text err)
  else Outcome.returned

/-! ## The shutdown sequence -/

/-- The two signals `signal.Notify` subscribes to. -/
inductive Signal where
  | interrupt
  | sigterm
  deriving DecidableEq

/-- Observable steps of the main path after the signal was read. -/
inductive Event where
  | logReceived (sig : Signal)
  | withTimeout (deadline : Nat)
  | logWaiting
  | sleep (d : Nat)
  | shutdown (deadline : Nat)
  | logForced (err : GoError)
  | logExiting
  | cancel
  deriving DecidableEq

/-- Behaviour of the environment of the main path, times in nanoseconds: the instant at
which `<-stopChan` yields the signal, how much longer than asked `time.Sleep` pauses (it
pauses for at least the duration asked), and what `srv.Shutdown` returns and how long it
takes, given the instant of the call and the deadline of its context. -/
structure Env where
  signalTime : Nat
  sig : Signal
  sleepOvershoot : Nat
  shutdown : Nat → Nat → Option GoError × Nat

/-- State of the main path: the clock and the steps taken so far, each with its instant. -/
structure MainState where
  now : Nat
  trace : List (Nat × Event)
  deriving DecidableEq

/-- Record a step at the current instant. -/
def MainState.emit (s : MainState) (e : Event) : MainState :=
  { s with trace := s.trace ++ [(s.now, e)] }

/-- Let time pass. -/
def MainState.advance (s : MainState) (d : Nat) : MainState :=
  { s with now := s.now + d }

/-- Lines 63-79: the main path from the reading of the signal to the return of `main`.
Statements other than `time.Sleep` and `srv.Shutdown` take no time. -/
def mainAfterSignal (env : Env) : MainState × Outcome :=
  -- sig := <-stopChan
  let s : MainState := { now := env.signalTime, trace := [] }
  let s := s.emit (Event.logReceived env.sig)
  -- ctx, cancel := context.WithTimeout(context.Background(), 15*time.Second)
  let deadline := s.now + 15 * Second
  let s := s.emit (Event.withTimeout deadline)
  let s := s.emit Event.logWaiting
  -- time.Sleep(5 * time.Second)
  let s := (s.emit (Event.sleep (5 * Second))).advance (5 * Second + env.sleepOvershoot)
  -- srv.Shutdown(ctx)
  let s := s.emit (Event.shutdown deadline)
  let res := env.shutdown s.now deadline
  let s := s.advance res.2
  let s := match res.1 with
    | some err => s.emit (Event.logForced err)
    | none => s
  let s := s.emit Event.logExiting
  -- deferred cancel()
  (s.emit Event.cancel, Outcome.returned)

/-- Events of a trace, without their instants. -/
def events (s : MainState) : List Event := s.trace.map Prod.snd

/-- Instants at which `srv.Shutdown` is invoked, each with the deadline of the context
passed to it. -/
def shutdownCalls (s : MainState) : List (Nat × Nat) :=
  s.trace.filterMap fun p =>
    match p.2 with
    | Event.shutdown deadline => some (p.1, deadline)
    | _ => none

/-- Instants of the final `Server exiting` log line. -/
def exitLogTimes (s : MainState) : List Nat :=
  s.trace.filterMap fun p =>
    match p.2 with
    | Event.logExiting => some p.1
    | _ => none

/-- The four steps whose order the shutdown sequence fixes: the log of the receipt, the
delay, the call of `srv.Shutdown` and the final log. -/
def isSequenceStep : Event → Bool
  | Event.logReceived _ => true
  | Event.sleep _ => true
  | Event.shutdown _ => true
  | Event.logExiting => true
  | _ => false

/-! ## Concrete inputs used below -/

/-- A `GET /process-image?duration=<value>` request. -/
def durationRequest (value : String) : Request :=
  { Method := "GET", Path := "/process-image", Header := [],
    Query := fun key => if key = "duration" then [value] else [] }

/-- A `GET /process-image` request without a query. -/
def plainRequest : Request :=
  { Method := "GET", Path := "/process-image", Header := [], Query := fun _ => [] }

/-- A `HEAD /` request. -/
def headRequest : Request :=
  { Method := "HEAD", Path := "/", Header := [], Query := fun _ => [] }

/-- A `POST /status?verbose=1` request with a header. -/
def postRequest : Request :=
  { Method := "POST", Path := "/status", Header := [("Accept", ["text/plain"])],
    Query := fun key => if key = "verbose" then ["1"] else [] }

/-- A clock that has advanced by one microsecond at each reading: 0 ns, 1000 ns, ... -/
def microsecondClock (i : Nat) : Int := 1000 * (i : Int)

/-- A clock that has advanced by two milliseconds at each reading. -/
def twoMillisecondClock (i : Nat) : Int := 2000000 * (i : Int)

/-- A clock reading 0 ns first and the largest `time.Duration` from then on. -/
def jumpClock (i : Nat) : Int := if i = 0 then 0 else 9223372036854775807

/-- An environment where the signal arrives at instant 0, the sleep takes exactly 5 seconds
and `srv.Shutdown` returns `nil` at once. -/
def promptEnv : Env :=
  { signalTime := 0, sig := Signal.sigterm, sleepOvershoot := 0,
    shutdown := fun _ _ => (none, 0) }

/-- An environment where `srv.Shutdown` waits for stragglers until the deadline of its
context and returns the error of the context. -/
def stragglerEnv : Env :=
  { signalTime := 100, sig := Signal.sigterm, sleepOvershoot := 0,
    shutdown := fun callTime deadline => (some GoError.deadlineExceeded, deadline - callTime) }

/-! ## Lemmas on the loop bound and the busy loop -/

theorem wrapInt64_of_inInt64 (x : Int) (h : inInt64 x) : wrapInt64 x = x := by
  unfold inInt64 at h
  unfold wrapInt64
  omega

theorem inInt64_wrapInt64 (x : Int) : inInt64 (wrapInt64 x) := by
  unfold inInt64 wrapInt64
  omega

theorem loopBound_of_small (N : Int) (hlo : -9223372036854 ≤ N) (hhi : N ≤ 9223372036854) :
    loopBound N = N * 1000000 := by
  unfold loopBound wrapInt64 Millisecond
  omega

/-- When the loop returns, it has consumed at least one reading and the last reading it
consumed had reached the bound. -/
theorem busyLoop_exit (since : Nat → Int) (bound : Int) :
    ∀ (fuel i : Nat) (px res : Int) (k : Nat),
      busyLoop since bound fuel i px = some (res, k) → i < k ∧ bound ≤ since (k - 1) := by
  intro fuel
  induction fuel with
  | zero => intro i px res k h; simp [busyLoop] at h
  | succ n ih =>
    intro i px res k h
    unfold busyLoop at h
    split at h
    · have h2 := ih (i + 1) _ res k h
      exact ⟨by omega, h2.2⟩
    · rename_i hnot
      simp only [Option.some.injEq, Prod.mk.injEq] at h
      obtain ⟨_, hk⟩ := h
      subst hk
      refine ⟨by omega, ?_⟩
      simpa using hnot

/-- The loop returns as soon as the fuel covers a reading that has reached the bound. -/
theorem busyLoop_returns (since : Nat → Int) (bound : Int) :
    ∀ (fuel i : Nat) (px : Int) (j : Nat), i ≤ j → bound ≤ since j → j - i < fuel →
      ∃ res, busyLoop since bound fuel i px = some res := by
  intro fuel
  induction fuel with
  | zero => intro i px j _ _ h; omega
  | succ n ih =>
    intro i px j hij hj hfuel
    unfold busyLoop
    split
    · rename_i hlt
      have hne : i ≠ j := by
        intro h; subst h; omega
      exact ih (i + 1) _ j (by omega) hj (by omega)
    · exact ⟨_, rfl⟩

/-- With a first reading that has reached the bound the loop body never runs. -/
theorem busyLoop_zero_iterations (since : Nat → Int) (bound : Int) (fuel : Nat)
    (h : bound ≤ since 0) : busyLoop since bound (fuel + 1) 0 0 = some (0, 1) := by
  unfold busyLoop
  have : ¬ since 0 < bound := by omega
  simp [this]

theorem processingTimeMs_of_parse (atoi : String → Int × Option GoError) (q : Values)
    (d : Int) (hq : q.Get "duration" ≠ "") (hparse : atoi (q.Get "duration") = (d, none)) :
    processingTimeMs atoi q = d := by
  unfold processingTimeMs
  simp [hq, hparse]

/-! ## The `/process-image` handler: duration parsing and the loop bound -/

/-- C4: the processing time is 50 when the query has no `duration` value, when its first
value is empty, and when `strconv.Atoi` reports an error on it; it is exactly the parsed
value `d`, of any sign, when `strconv.Atoi` parses the non-empty first value; and every
response the handler writes has status 200, so a parse failure is never surfaced. -/
theorem processingTimeMs_default_or_parsed (atoi : String → Int × Option GoError)
    (r : Request) :
    (r.Query "duration" = [] → processingTimeMs atoi r.Query = 50) ∧
    (∀ rest, r.Query "duration" = "" :: rest → processingTimeMs atoi r.Query = 50) ∧
    (∀ s rest v e, r.Query "duration" = s :: rest → atoi s = (v, some e) →
      processingTimeMs atoi r.Query = 50) ∧
    (∀ s rest d, r.Query "duration" = s :: rest → s ≠ "" → atoi s = (d, none) →
      processingTimeMs atoi r.Query = d) ∧
    (∀ since fuel resp, processImage atoi r since fuel = some resp → resp.status = 200) := by
  refine ⟨?_, ?_, ?_, ?_, ?_⟩
  · intro h
    simp [processingTimeMs, Values.Get, h]
  · intro rest h
    simp [processingTimeMs, Values.Get, h]
  · intro s rest v e h hs
    simp [processingTimeMs, Values.Get, h, hs]
  · intro s rest d h hne hs
    simp [processingTimeMs, Values.Get, h, hs, hne]
  · intro since fuel resp h
    unfold processImage at h
    split at h
    · simp at h
    · simp only [Option.some.injEq] at h
      rw [← h]

/-- C4 at concrete requests: `duration=-7`, `duration=0`, `duration=abc`, an empty value
and no query at all. -/
theorem processingTimeMs_default_or_parsed_witness :
    processingTimeMs Atoi (durationRequest "-7").Query = -7 ∧
    processingTimeMs Atoi (durationRequest "0").Query = 0 ∧
    processingTimeMs Atoi (durationRequest "abc").Query = 50 ∧
    processingTimeMs Atoi (durationRequest "").Query = 50 ∧
    processingTimeMs Atoi plainRequest.Query = 50 :=
  ⟨(processingTimeMs_default_or_parsed Atoi (durationRequest "-7")).2.2.2.1 "-7" [] (-7)
      (by decide) (by decide) (by decide),
   (processingTimeMs_default_or_parsed Atoi (durationRequest "0")).2.2.2.1 "0" [] 0
      (by decide) (by decide) (by decide),
   (processingTimeMs_default_or_parsed Atoi (durationRequest "abc")).2.2.1 "abc" [] 0
      GoError.syntaxError (by decide) (by decide),
   (processingTimeMs_default_or_parsed Atoi (durationRequest "")).2.1 [] (by decide),
   (processingTimeMs_default_or_parsed Atoi plainRequest).1 (by decide)⟩

/-- C10: for `N` between -9223372036854 and 9223372036854 the loop bound is exactly
`N * 1000000` nanoseconds and has the sign of `N`; for every other `int64` value `N` the
bound is the product wrapped modulo 2^64 into the `int64` range and differs from
`N * 1000000`. -/
theorem loopBound_exact_iff_small (N : Int) :
    (-9223372036854 ≤ N → N ≤ 9223372036854 →
      loopBound N = N * 1000000 ∧ (0 < loopBound N ↔ 0 < N) ∧ (loopBound N < 0 ↔ N < 0) ∧
        (loopBound N = 0 ↔ N = 0)) ∧
    (inInt64 N → (N < -9223372036854 ∨ 9223372036854 < N) →
      loopBound N ≠ N * 1000000 ∧ inInt64 (loopBound N) ∧
        (18446744073709551616 : Int) ∣ (N * 1000000 - loopBound N)) := by
  constructor
  · intro hlo hhi
    rw [loopBound_of_small N hlo hhi]
    omega
  · intro hN hout
    unfold inInt64 at hN
    refine ⟨?_, inInt64_wrapInt64 _, ?_⟩
    · unfold loopBound wrapInt64 Millisecond
      omega
    · unfold loopBound wrapInt64 Millisecond
      omega

/-- C10 at the four values next to the two limits. -/
theorem loopBound_exact_iff_small_witness :
    loopBound 9223372036854 = 9223372036854 * 1000000 ∧
    loopBound (-9223372036854) = -9223372036854 * 1000000 ∧
    loopBound 9223372036855 ≠ 9223372036855 * 1000000 ∧
    loopBound (-9223372036855) ≠ -9223372036855 * 1000000 :=
  ⟨((loopBound_exact_iff_small 9223372036854).1 (by decide) (by decide)).1,
   ((loopBound_exact_iff_small (-9223372036854)).1 (by decide) (by decide)).1,
   ((loopBound_exact_iff_small 9223372036855).2 (by decide) (by decide)).1,
   ((loopBound_exact_iff_small (-9223372036855)).2 (by decide) (by decide)).1⟩

/-! ## The `/process-image` handler: elapsed time and iteration count -/

/-- C1, as stated, fails at `duration=9223372036855`: `strconv.Atoi` accepts the value, it is
positive, the clock is monotone, yet the 64-bit product is negative, the handler returns
after one evaluation of the loop condition and reports 1000 ns, less than the
9223372036855 ms asked for. -/
theorem processImage_elapsed_counterexample :
    Atoi ((durationRequest "9223372036855").Query.Get "duration") = (9223372036855, none) ∧
    (0 : Int) < 9223372036855 ∧
    Monotone microsecondClock ∧
    loopBound 9223372036855 = -9223372036854551616 ∧
    processImage Atoi (durationRequest "9223372036855") microsecondClock 1
      = some { status := 200, pixelsProcessed := 0, elapsed := 1000 } ∧
    ¬ (9223372036855 * Millisecond ≤ (1000 : Int)) := by
  refine ⟨by decide, by decide, ?_, by decide, by decide, by decide⟩
  intro a b hab
  have h : (a : Int) ≤ (b : Int) := Int.ofNat_le.mpr hab
  unfold microsecondClock
  omega

/-- C1, amended: for a `duration` value `N` with `0 < N ≤ 9223372036854` that
`strconv.Atoi` parses, and a monotone clock, every response of the handler reports an
elapsed time of at least `N` milliseconds, and the handler does respond once a reading of
the clock has reached `N` milliseconds. -/
theorem processImage_elapsed_ge (atoi : String → Int × Option GoError) (r : Request)
    (since : Nat → Int) (N : Int)
    (hq : r.Query.Get "duration" ≠ "") (hparse : atoi (r.Query.Get "duration") = (N, none))
    (hpos : 0 < N) (hmax : N ≤ 9223372036854) (hmono : Monotone since) :
    (∀ fuel resp, processImage atoi r since fuel = some resp →
      N * Millisecond ≤ resp.elapsed) ∧
    (∀ k, N * Millisecond ≤ since k →
      ∃ resp, processImage atoi r since (k + 1) = some resp ∧
        N * Millisecond ≤ resp.elapsed) := by
  have hms : processingTimeMs atoi r.Query = N := processingTimeMs_of_parse atoi r.Query N hq hparse
  have hb : loopBound N = N * Millisecond := by
    rw [loopBound_of_small N (by omega) hmax]; rfl
  have key : ∀ fuel resp, processImage atoi r since fuel = some resp →
      N * Millisecond ≤ resp.elapsed := by
    intro fuel resp h
    unfold processImage at h
    rw [hms, hb] at h
    split at h
    · simp at h
    · rename_i px k hloop
      simp only [Option.some.injEq] at h
      rw [← h]
      obtain ⟨hk, hge⟩ := busyLoop_exit since (N * Millisecond) fuel 0 0 px k hloop
      have hle : since (k - 1) ≤ since k := hmono (by omega)
      exact le_trans hge hle
  refine ⟨key, ?_⟩
  intro k hk
  obtain ⟨res, hres⟩ :=
    busyLoop_returns since (N * Millisecond) (k + 1) 0 0 k (by omega) hk (by omega)
  have hex : ∃ resp, processImage atoi r since (k + 1) = some resp := by
    unfold processImage
    rw [hms, hb, hres]
    exact ⟨_, rfl⟩
  obtain ⟨resp, hresp⟩ := hex
  exact ⟨resp, hresp, key _ _ hresp⟩

/-- C1, amended, at `duration=3` with a clock advancing two milliseconds a reading: the
handler responds within three evaluations of the loop condition. -/
theorem processImage_elapsed_ge_witness :
    (∀ fuel resp, processImage Atoi (durationRequest "3") twoMillisecondClock fuel = some resp →
      3 * Millisecond ≤ resp.elapsed) ∧
    (∀ k, 3 * Millisecond ≤ twoMillisecondClock k →
      ∃ resp, processImage Atoi (durationRequest "3") twoMillisecondClock (k + 1) = some resp ∧
        3 * Millisecond ≤ resp.elapsed) :=
  processImage_elapsed_ge Atoi (durationRequest "3") twoMillisecondClock 3
    (by decide) (by decide) (by decide) (by decide)
    (by
      intro a b hab
      have h : (a : Int) ≤ (b : Int) := Int.ofNat_le.mpr hab
      unfold twoMillisecondClock
      omega)

/-- C2, as stated, fails at `duration=-9223372036855`: `strconv.Atoi` accepts the value, it
is negative, the first reading of the clock is 0, yet the 64-bit product is positive, the
loop condition holds on its first evaluation and the handler reports one pixel. -/
theorem processImage_nonpositive_counterexample :
    Atoi ((durationRequest "-9223372036855").Query.Get "duration")
      = (-9223372036855, none) ∧
    (-9223372036855 : Int) ≤ 0 ∧
    (0 : Int) ≤ jumpClock 0 ∧
    loopBound (-9223372036855) = 9223372036854551616 ∧
    jumpClock 0 < loopBound (-9223372036855) ∧
    processImage Atoi (durationRequest "-9223372036855") jumpClock 2
      = some { status := 200, pixelsProcessed := 1, elapsed := 9223372036854775807 } := by
  decide

/-- C2, amended: for a `duration` value `N` with `-9223372036854 ≤ N ≤ 0` that
`strconv.Atoi` parses, and a first clock reading that is not negative, the loop condition is
false on its first evaluation, and the handler responds after that one evaluation with a
pixel count of 0. -/
theorem processImage_nonpositive_zero_iterations (atoi : String → Int × Option GoError)
    (r : Request) (since : Nat → Int) (N : Int) (fuel : Nat)
    (hq : r.Query.Get "duration" ≠ "") (hparse : atoi (r.Query.Get "duration") = (N, none))
    (hmin : -9223372036854 ≤ N) (hle : N ≤ 0) (h0 : 0 ≤ since 0) :
    ¬ (since 0 < loopBound N) ∧
    busyLoop since (loopBound N) (fuel + 1) 0 0 = some (0, 1) ∧
    processImage atoi r since (fuel + 1)
      = some { status := 200, pixelsProcessed := 0, elapsed := since 1 } := by
  have hms : processingTimeMs atoi r.Query = N := processingTimeMs_of_parse atoi r.Query N hq hparse
  have hb : loopBound N = N * 1000000 := loopBound_of_small N hmin (by omega)
  have hbound : loopBound N ≤ since 0 := by rw [hb]; omega
  have hloop := busyLoop_zero_iterations since (loopBound N) fuel hbound
  refine ⟨by omega, hloop, ?_⟩
  unfold processImage
  rw [hms, hloop]

/-- C2, amended, at `duration=0` and at `duration=-5`. -/
theorem processImage_nonpositive_zero_iterations_witness :
    processImage Atoi (durationRequest "0") microsecondClock 1
      = some { status := 200, pixelsProcessed := 0, elapsed := microsecondClock 1 } ∧
    processImage Atoi (durationRequest "-5") microsecondClock 1
      = some { status := 200, pixelsProcessed := 0, elapsed := microsecondClock 1 } :=
  ⟨(processImage_nonpositive_zero_iterations Atoi (durationRequest "0") microsecondClock 0 0
      (by decide) (by decide) (by decide) (by decide) (by decide)).2.2,
   (processImage_nonpositive_zero_iterations Atoi (durationRequest "-5") microsecondClock (-5) 0
      (by decide) (by decide) (by decide) (by decide) (by decide)).2.2⟩

/-! ## The health handler -/

/-- C9, as stated, fails at a `HEAD /` request: the handler runs and the status is 200,
but the server drops what the handler writes, so the body is empty and not
`Image Processing Service: Ready`. -/
theorem serveHealth_head_counterexample :
    headRequest.Method = "HEAD" ∧
    (serveHealth headRequest).status = 200 ∧
    (serveHealth headRequest).body = "" ∧
    ¬ ((serveHealth headRequest).body = "Image Processing Service: Ready") := by
  decide

/-- C9, amended: for every request given to the health handler the status is 200; the body
is exactly `Image Processing Service: Ready` when the method is not `HEAD` and empty when
it is; two requests that are both `HEAD` or both not get the same status and body, whatever
their headers, paths and queries. -/
theorem serveHealth_fixed_response (r : Request) :
    (serveHealth r).status = 200 ∧
    (r.Method ≠ "HEAD" → (serveHealth r).body = "Image Processing Service: Ready") ∧
    (r.Method = "HEAD" → (serveHealth r).body = "") ∧
    (∀ r2 : Request, (r.Method = "HEAD" ↔ r2.Method = "HEAD") →
      (serveHealth r).status = (serveHealth r2).status ∧
      (serveHealth r).body = (serveHealth r2).body) := by
  have hs : ∀ q : Request, (serveHealth q).status = 200 := by
    intro q
    by_cases hq : q.Method = "HEAD" <;>
      simp [serveHealth, healthHandler, ResponseWriter.fresh, ResponseWriter.WriteHeader,
        ResponseWriter.Write, bodyAllowedForStatus, hq]
  have hbody : ∀ q : Request, q.Method ≠ "HEAD" →
      (serveHealth q).body = "Image Processing Service: Ready" := by
    intro q hq
    simp [serveHealth, healthHandler, ResponseWriter.fresh, ResponseWriter.WriteHeader,
      ResponseWriter.Write, bodyAllowedForStatus, hq]
  have hhead : ∀ q : Request, q.Method = "HEAD" → (serveHealth q).body = "" := by
    intro q hq
    simp [serveHealth, healthHandler, ResponseWriter.fresh, ResponseWriter.WriteHeader,
      ResponseWriter.Write, bodyAllowedForStatus, hq]
  refine ⟨hs r, hbody r, hhead r, ?_⟩
  intro r2 hiff
  refine ⟨by rw [hs r, hs r2], ?_⟩
  by_cases hr : r.Method = "HEAD"
  · rw [hhead r hr, hhead r2 (hiff.mp hr)]
  · have hr2 : r2.Method ≠ "HEAD" := fun h => hr (hiff.mpr h)
    rw [hbody r hr, hbody r2 hr2]

/-- C9, amended, at a `POST` request with a path, a header and a query, and at a `GET`
request: the same status 200 and the same fixed body. -/
theorem serveHealth_fixed_response_witness :
    (serveHealth postRequest).body = "Image Processing Service: Ready" ∧
    (serveHealth postRequest).status = (serveHealth plainRequest).status ∧
    (serveHealth postRequest).body = (serveHealth plainRequest).body :=
  ⟨(serveHealth_fixed_response postRequest).2.1 (by decide),
   (serveHealth_fixed_response postRequest).2.2.2 plainRequest (by decide)⟩

/-! ## The listener goroutine -/

/-- C7: the goroutine ends in `log.Fatalf` exactly when the error of `srv.ListenAndServe`
is not `http.ErrServerClosed`, and returns exactly when it is. -/
theorem listenerPath_fatal_iff (err : Option GoError) :
    ((∃ msg, listenerPath err = Outcome.fatal msg) ↔ err ≠ some GoError.errServerClosed) ∧
    (listenerPath err = Outcome.returned ↔ err = some GoError.errServerClosed) := by
  unfold listenerPath
  by_cases h : err = some GoError.errServerClosed
  · simp [h]
  · simp [h]

/-! ## The shutdown sequence -/

/-- C5: after the signal the main path logs the receipt, sleeps for 5 seconds, calls
`srv.Shutdown` and logs the exit, in this order; it calls `srv.Shutdown` once, and not
before 5 seconds have passed since the signal was read. -/
theorem mainAfterSignal_order (env : Env) :
    (events (mainAfterSignal env).1).filter isSequenceStep
      = [Event.logReceived env.sig, Event.sleep (5 * Second),
         Event.shutdown (env.signalTime + 15 * Second), Event.logExiting] ∧
    (shutdownCalls (mainAfterSignal env).1).length = 1 ∧
    (∀ p ∈ shutdownCalls (mainAfterSignal env).1, env.signalTime + 5 * Second ≤ p.1) := by
  unfold mainAfterSignal
  cases h : (env.shutdown (env.signalTime + (5 * Second + env.sleepOvershoot))
      (env.signalTime + 15 * Second)).1 <;>
    simp [MainState.emit, MainState.advance, events, shutdownCalls, isSequenceStep, h]

/-- C3, as stated, fails: with the signal at instant 0 and a sleep of exactly 5 seconds,
`srv.Shutdown` is invoked at 5 s with a context whose deadline is 15 s, which lies 10
seconds in the future, not 15. -/
theorem shutdown_deadline_counterexample :
    shutdownCalls (mainAfterSignal promptEnv).1 = [(5 * Second, 15 * Second)] ∧
    15 * Second - 5 * Second = 10 * Second ∧
    ¬ (15 * Second = 5 * Second + 15 * Second) := by
  decide

/-- C3, amended: the context passed to `srv.Shutdown` has its deadline 15 seconds after the
signal was read; `srv.Shutdown` is invoked once, after the delay, and at that moment the
deadline lies at most 10 seconds in the future, exactly 10 seconds when the sleep takes
exactly 5 seconds. -/
theorem shutdown_deadline_ten_seconds (env : Env) :
    ∃ callTime deadline,
      shutdownCalls (mainAfterSignal env).1 = [(callTime, deadline)] ∧
      (env.signalTime, Event.withTimeout deadline) ∈ (mainAfterSignal env).1.trace ∧
      deadline = env.signalTime + 15 * Second ∧
      callTime = env.signalTime + 5 * Second + env.sleepOvershoot ∧
      deadline ≤ callTime + 10 * Second ∧
      (env.sleepOvershoot = 0 → deadline = callTime + 10 * Second) := by
  refine ⟨env.signalTime + 5 * Second + env.sleepOvershoot, env.signalTime + 15 * Second,
    ?_, ?_, rfl, rfl, ?_, ?_⟩
  · unfold mainAfterSignal
    cases h : (env.shutdown (env.signalTime + (5 * Second + env.sleepOvershoot))
        (env.signalTime + 15 * Second)).1 <;>
      simp [MainState.emit, MainState.advance, shutdownCalls, h] <;> omega
  · unfold mainAfterSignal
    cases h : (env.shutdown (env.signalTime + (5 * Second + env.sleepOvershoot))
        (env.signalTime + 15 * Second)).1 <;>
      simp [MainState.emit, MainState.advance, h]
  · omega
  · intro h
    omega

/-- C3, amended, when the sleep takes exactly 5 seconds. -/
theorem shutdown_deadline_ten_seconds_witness :
    ∃ callTime deadline,
      shutdownCalls (mainAfterSignal stragglerEnv).1 = [(callTime, deadline)] ∧
      deadline = callTime + 10 * Second := by
  obtain ⟨callTime, deadline, h1, _, _, _, _, h6⟩ := shutdown_deadline_ten_seconds stragglerEnv
  exact ⟨callTime, deadline, h1, h6 (by decide)⟩

/-- C6: when the sleep takes exactly 5 seconds and `srv.Shutdown`, called before the
deadline of its context, returns no later than that deadline, the main path logs
`Server exiting` and returns at most 5 + 15 = 20 seconds after the signal was read. -/
theorem mainAfterSignal_exits_within_twenty_seconds (env : Env)
    (hsleep : env.sleepOvershoot = 0)
    (hshutdown : ∀ callTime deadline, callTime ≤ deadline →
      callTime + (env.shutdown callTime deadline).2 ≤ deadline) :
    ∃ t, exitLogTimes (mainAfterSignal env).1 = [t] ∧
      (mainAfterSignal env).1.now = t ∧
      (mainAfterSignal env).2 = Outcome.returned ∧
      t ≤ env.signalTime + (5 + 15) * Second := by
  have hcall := hshutdown (env.signalTime + (5 * Second + env.sleepOvershoot))
    (env.signalTime + 15 * Second) (by omega)
  refine ⟨env.signalTime + (5 * Second + env.sleepOvershoot)
    + (env.shutdown (env.signalTime + (5 * Second + env.sleepOvershoot))
        (env.signalTime + 15 * Second)).2, ?_, ?_, ?_, ?_⟩
  · unfold mainAfterSignal
    cases h : (env.shutdown (env.signalTime + (5 * Second + env.sleepOvershoot))
        (env.signalTime + 15 * Second)).1 <;>
      simp [MainState.emit, MainState.advance, exitLogTimes, h]
  · unfold mainAfterSignal
    cases h : (env.shutdown (env.signalTime + (5 * Second + env.sleepOvershoot))
        (env.signalTime + 15 * Second)).1 <;>
      simp [MainState.emit, MainState.advance, h]
  · rfl
  · omega

/-- C6 when `srv.Shutdown` uses up its whole bound: the signal is read at instant 100 and
the main path exits no later than instant 100 + 20 s. -/
theorem mainAfterSignal_exits_within_twenty_seconds_witness :
    ∃ t, exitLogTimes (mainAfterSignal stragglerEnv).1 = [t] ∧
      (mainAfterSignal stragglerEnv).1.now = t ∧
      (mainAfterSignal stragglerEnv).2 = Outcome.returned ∧
      t ≤ 100 + (5 + 15) * Second :=
  mainAfterSignal_exits_within_twenty_seconds stragglerEnv (by decide)
    (by
      intro callTime deadline h
      show callTime + (deadline - callTime) ≤ deadline
      omega)

/-- C8: whatever `srv.Shutdown` returns, the main path returns normally after the
`Server exiting` log; with an error its steps are those of a run without error plus the one
log line of the error, placed right after the single call of `srv.Shutdown`. -/
theorem mainAfterSignal_shutdown_error_nonfatal (env : Env) :
    (mainAfterSignal env).2 = Outcome.returned ∧
    (shutdownCalls (mainAfterSignal env).1).length = 1 ∧
    ((env.shutdown (env.signalTime + 5 * Second + env.sleepOvershoot)
        (env.signalTime + 15 * Second)).1 = none →
      events (mainAfterSignal env).1
        = [Event.logReceived env.sig, Event.withTimeout (env.signalTime + 15 * Second),
           Event.logWaiting, Event.sleep (5 * Second),
           Event.shutdown (env.signalTime + 15 * Second),
           Event.logExiting, Event.cancel]) ∧
    (∀ err, (env.shutdown (env.signalTime + 5 * Second + env.sleepOvershoot)
        (env.signalTime + 15 * Second)).1 = some err →
      events (mainAfterSignal env).1
        = [Event.logReceived env.sig, Event.withTimeout (env.signalTime + 15 * Second),
           Event.logWaiting, Event.sleep (5 * Second),
           Event.shutdown (env.signalTime + 15 * Second),
           Event.logForced err, Event.logExiting, Event.cancel]) := by
  have hassoc : env.signalTime + 5 * Second + env.sleepOvershoot
      = env.signalTime + (5 * Second + env.sleepOvershoot) := by omega
  rw [hassoc]
  unfold mainAfterSignal
  cases h : (env.shutdown (env.signalTime + (5 * Second + env.sleepOvershoot))
      (env.signalTime + 15 * Second)).1 <;>
    simp [MainState.emit, MainState.advance, events, shutdownCalls, h]

/-- C8 at a run where `srv.Shutdown` times out: the error is logged and the run goes on to
the final log. -/
theorem mainAfterSignal_shutdown_error_nonfatal_witness :
    events (mainAfterSignal stragglerEnv).1
      = [Event.logReceived Signal.sigterm, Event.withTimeout (100 + 15 * Second),
         Event.logWaiting, Event.sleep (5 * Second), Event.shutdown (100 + 15 * Second),
         Event.logForced GoError.deadlineExceeded, Event.logExiting, Event.cancel] :=
  (mainAfterSignal_shutdown_error_nonfatal stragglerEnv).2.2.2 GoError.deadlineExceeded
    (by decide)

end SpotFailsafe
